import Mathlib

/-!
Shallow embedding of `PhysicalOperator`
(`python/ray/data/_internal/execution/interfaces/physical_operator.py`).

The base class keeps three private booleans (`_inputs_complete`,
`_dependents_complete`, `_started`).  The methods `get_work_refs` and
`has_next` are dispatched to the concrete subclass; we model the values a
concrete operator would answer as explicit state fields (`work_refs`,
`has_next`), while the base-class default bodies (`get_work_refs` returning
`[]`, `has_next` raising `NotImplementedError`) are embedded separately.
Methods that can raise are embedded as `Except`-returning functions.
-/

/-- Python exceptions the base class can raise: `ValueError` (the usage
error in `shutdown`) and `NotImplementedError` (abstract methods). -/
inductive PyError where
  | valueError (msg : String)
  | notImplementedError
  deriving Repr, DecidableEq

/-- The static operator DAG.  `ov` models a concrete subclass overriding
`num_outputs_total` to return a fixed known value (`some v`); `none` means
the operator uses the inherited default implementation. -/
inductive PhysOp where
  | mk (name : String) (deps : List PhysOp) (ov : Option (Option Nat))
  deriving Repr

/-- `input_dependencies` attribute of an operator node. -/
def PhysOp.input_dependencies : PhysOp → List PhysOp
  | .mk _ deps _ => deps

/-- `num_outputs_total` (source lines 96-103): the default implementation
returns the single upstream operator's `num_outputs_total()` when there is
exactly one input dependency, and `None` otherwise.  An overriding subclass
(`ov = some v`) answers its fixed value instead. -/
def PhysOp.num_outputs_total : PhysOp → Option Nat
  | .mk _ _ (some v) => v
  | .mk _ [d] none => PhysOp.num_outputs_total d
  | .mk _ _ none => none

/-- Dynamic state of one operator: the three base-class booleans plus the
subclass-determined answers of `get_work_refs` and `has_next` (work handles
are modelled as natural-number ids). -/
structure OpState where
  name : String
  input_dependencies : List PhysOp
  inputs_complete : Bool
  dependents_complete : Bool
  started : Bool
  work_refs : List Nat
  has_next : Bool

/-- `__init__` (source lines 46-52): `_inputs_complete = not
input_dependencies` (true iff the list is empty), `_dependents_complete =
False`, `_started = False`.  `work` and `hnext` are whatever the concrete
subclass's `get_work_refs`/`has_next` would answer right after
construction (the base default for `get_work_refs` is `[]`). -/
def mkOperator (name : String) (deps : List PhysOp) (work : List Nat)
    (hnext : Bool) : OpState :=
  { name := name
    input_dependencies := deps
    inputs_complete := deps.isEmpty
    dependents_complete := false
    started := false
    work_refs := work
    has_next := hnext }

/-- `self.get_work_refs()`: dynamic dispatch to the concrete operator. -/
def get_work_refs (s : OpState) : List Nat :=
  s.work_refs

/-- `self.has_next()`: dynamic dispatch to the concrete operator. -/
def has_next (s : OpState) : Bool :=
  s.has_next

/-- `completed` (source lines 57-68): `(self._inputs_complete and
len(self.get_work_refs()) == 0 and not self.has_next()) or
self._dependents_complete`. -/
def completed (s : OpState) : Bool :=
  (s.inputs_complete && (get_work_refs s).length == 0 && !(has_next s))
    || s.dependents_complete

/-- `num_active_work_refs` (source lines 196-201): `return
len(self.get_work_refs())`. -/
def num_active_work_refs (s : OpState) : Nat :=
  (get_work_refs s).length

/-- From the spec's words, for comparison with the source definition:
`numActiveWorkRefs()` is a possibly-cheaper count of the set returned by
`getWorkRefs()` (default: length of `getWorkRefs()`). -/
def num_active_work_refs_spec (s : OpState) : Nat :=
  (get_work_refs s).length

/-- `start` (source lines 105-111): sets `_started = True`; cannot raise. -/
def start (s : OpState) : Except PyError OpState :=
  .ok { s with started := true }

/-- `input_done` (source lines 142-148): the body is `pass`; it neither
checks `_started` nor changes any state, and cannot raise. -/
def input_done (s : OpState) (_ : Nat) : Except PyError OpState :=
  .ok s

/-- `all_inputs_done` (source lines 150-156): sets `_inputs_complete =
True`; no `_started` check, cannot raise. -/
def all_inputs_done (s : OpState) : Except PyError OpState :=
  .ok { s with inputs_complete := true }

/-- `all_dependents_complete` (source lines 158-163): sets
`_dependents_complete = True`; no `_started` check, cannot raise. -/
def all_dependents_complete (s : OpState) : Except PyError OpState :=
  .ok { s with dependents_complete := true }

/-- `shutdown` (source lines 218-225): raises `ValueError("Operator must be
started before being shutdown.")` when `_started` is false; otherwise the
base body does nothing. -/
def shutdown (s : OpState) : Except PyError OpState :=
  if !s.started then
    .error (.valueError "Operator must be started before being shutdown.")
  else
    .ok s

/-- Base-class `add_input` (source lines 128-140): `raise
NotImplementedError`, irrespective of any state. -/
def add_input_base (_ : OpState) (_ : List Nat) (_ : Nat) :
    Except PyError OpState :=
  .error .notImplementedError

/-- Base-class `get_next` (source lines 172-177): `raise
NotImplementedError`, irrespective of any state. -/
def get_next_base (_ : OpState) : Except PyError (OpState × List Nat) :=
  .error .notImplementedError

/-- Base-class `has_next` (source lines 165-170): `raise
NotImplementedError`, irrespective of any state. -/
def has_next_base (_ : OpState) : Except PyError Bool :=
  .error .notImplementedError

/-- Modelled from the spec: the `ExecutionResources` Resource Vector class
lives in `execution_options.py`, which is not part of the included source.
The spec describes it as a fixed-schema quantity (cpu, gpu, and a
shared-memory-like budget dimension) with addition and a zero identity. -/
structure ExecutionResources where
  cpu : Int
  gpu : Int
  object_store_memory : Int
  deriving Repr, DecidableEq

/-- The zero Resource Vector, the default-constructed `ExecutionResources()`. -/
def ExecutionResources.zero : ExecutionResources :=
  { cpu := 0, gpu := 0, object_store_memory := 0 }

/-- `base_resource_usage` (source lines 235-241): returns
`ExecutionResources()`. -/
def base_resource_usage (_ : OpState) : ExecutionResources :=
  ExecutionResources.zero

/-- `current_resource_usage` (source lines 227-233): returns
`ExecutionResources()`. -/
def current_resource_usage (_ : OpState) : ExecutionResources :=
  ExecutionResources.zero

/-- `incremental_resource_usage` (source lines 243-249): returns
`ExecutionResources()`. -/
def incremental_resource_usage (_ : OpState) : ExecutionResources :=
  ExecutionResources.zero

/-- One executor-issued call into an operator.  Calls whose effect on the
subclass-owned part of the state (`work_refs`, `has_next`) is
subclass-defined carry the post-call values of that part as parameters. -/
inductive Step where
  | start
  | addInput (w : List Nat) (h : Bool)
  | inputDone (i : Nat)
  | allInputsDone
  | allDependentsComplete
  | getNext (w : List Nat) (h : Bool)
  | notifyWorkCompleted (w : List Nat) (h : Bool)
  deriving Repr, DecidableEq

/-- Effect of one call on the operator state.  The base-class flag updates
are the ones of the source (`start`, `all_inputs_done`,
`all_dependents_complete`, and `input_done` = `pass`); the remaining calls
update only the subclass-owned part. -/
def applyStep (s : OpState) : Step → OpState
  | .start => { s with started := true }
  | .addInput w h => { s with work_refs := w, has_next := h }
  | .inputDone _ => s
  | .allInputsDone => { s with inputs_complete := true }
  | .allDependentsComplete => { s with dependents_complete := true }
  | .getNext w h => { s with work_refs := w, has_next := h }
  | .notifyWorkCompleted w h => { s with work_refs := w, has_next := h }

/-- Run a sequence of calls left to right. -/
def runSteps (s : OpState) : List Step → OpState
  | [] => s
  | st :: rest => runSteps (applyStep s st) rest

/-- The API-contract condition the spec imposes on a concrete operator
(§4.1): once `inputsComplete` holds, the work handles have drained to empty
and no output is pending, the operator must never again report outstanding
work or `hasNext() = true`. -/
def stepContractOK (s : OpState) (st : Step) : Prop :=
  (s.inputs_complete = true ∧ s.work_refs = [] ∧ s.has_next = false) →
    ((applyStep s st).work_refs = [] ∧ (applyStep s st).has_next = false)

/-- A call trace each of whose calls respects the API contract. -/
def ContractTrace : OpState → List Step → Prop
  | _, [] => True
  | s, st :: rest => stepContractOK s st ∧ ContractTrace (applyStep s st) rest

/-- Unfolding of the `completed` boolean into a proposition. -/
theorem completed_true_iff (s : OpState) :
    completed s = true ↔
      ((s.inputs_complete = true ∧ get_work_refs s = [] ∧ has_next s = false)
        ∨ s.dependents_complete = true) := by
  simp [completed, get_work_refs, has_next, Bool.or_eq_true, Bool.and_eq_true,
    Bool.not_eq_true', List.length_eq_zero, beq_iff_eq, and_assoc]

/-- No call resets `_inputs_complete` from true to false. -/
theorem applyStep_inputs_complete_mono (s : OpState) (st : Step)
    (h : s.inputs_complete = true) :
    (applyStep s st).inputs_complete = true := by
  cases st <;> first | exact h | rfl

/-- No call resets `_dependents_complete` from true to false. -/
theorem applyStep_dependents_complete_mono (s : OpState) (st : Step)
    (h : s.dependents_complete = true) :
    (applyStep s st).dependents_complete = true := by
  cases st <;> first | exact h | rfl

/-- One contract-respecting call preserves `completed() = true`. -/
theorem completed_applyStep (s : OpState) (st : Step)
    (hc : stepContractOK s st) (h : completed s = true) :
    completed (applyStep s st) = true := by
  rcases (completed_true_iff s).mp h with ⟨hi, hw, hn⟩ | hd
  · rcases hc ⟨hi, hw, hn⟩ with ⟨hw2, hn2⟩
    exact (completed_true_iff _).mpr
      (Or.inl ⟨applyStep_inputs_complete_mono s st hi, hw2, hn2⟩)
  · exact (completed_true_iff _).mpr
      (Or.inr (applyStep_dependents_complete_mono s st hd))

/-- A whole contract-respecting trace preserves `completed() = true`. -/
theorem completed_runSteps (s : OpState) (steps : List Step)
    (hc : ContractTrace s steps) (h : completed s = true) :
    completed (runSteps s steps) = true := by
  induction steps generalizing s with
  | nil => exact h
  | cons st rest ih =>
    simp only [ContractTrace] at hc
    exact ih (applyStep s st) hc.2 (completed_applyStep s st hc.1 h)

/-- Claim C1: `completed()` is true iff (`inputsComplete` is true AND
`getWorkRefs()` is empty AND `hasNext()` is false) OR `dependentsComplete`
is true; and after `allDependentsComplete()` has been called, `completed()`
is true regardless of any other state. -/
theorem completed_iff_and_dependents_shortcircuit :
    (∀ s : OpState, completed s = true ↔
      ((s.inputs_complete = true ∧ get_work_refs s = [] ∧ has_next s = false)
        ∨ s.dependents_complete = true)) ∧
    (∀ s t : OpState, all_dependents_complete s = Except.ok t →
      completed t = true) := by
  constructor
  · exact completed_true_iff
  · intro s t h
    simp only [all_dependents_complete, Except.ok.injEq] at h
    subst h
    simp [completed]

/-- Witness for C1: an operator with pending work and undelivered output,
incomplete inputs, is `completed` right after `all_dependents_complete`. -/
theorem completed_iff_and_dependents_shortcircuit_witness :
    completed
      { mkOperator "op" [PhysOp.mk "u" [] none] [7] true with
        dependents_complete := true } = true :=
  completed_iff_and_dependents_shortcircuit.2
    (mkOperator "op" [PhysOp.mk "u" [] none] [7] true) _ rfl

/-- Claim C2: along any contract-respecting call trace, once `completed()`
is true it stays true; and no single call resets `inputsComplete` or
`dependentsComplete` from true back to false. -/
theorem completed_monotone :
    (∀ (s : OpState) (steps : List Step), ContractTrace s steps →
      completed s = true → completed (runSteps s steps) = true) ∧
    (∀ (s : OpState) (st : Step), s.inputs_complete = true →
      (applyStep s st).inputs_complete = true) ∧
    (∀ (s : OpState) (st : Step), s.dependents_complete = true →
      (applyStep s st).dependents_complete = true) :=
  ⟨completed_runSteps, applyStep_inputs_complete_mono,
    applyStep_dependents_complete_mono⟩

/-- Witness for C2: a completed source operator stays completed across a
start / all-inputs-done / all-dependents-complete trace. -/
theorem completed_monotone_witness :
    completed (runSteps (mkOperator "src" [] [] false)
      [Step.start, Step.allInputsDone, Step.allDependentsComplete]) = true :=
  completed_monotone.1 (mkOperator "src" [] [] false)
    [Step.start, Step.allInputsDone, Step.allDependentsComplete]
    ⟨fun _ => ⟨rfl, rfl⟩, fun _ => ⟨rfl, rfl⟩, fun _ => ⟨rfl, rfl⟩, trivial⟩
    rfl

/-- Counterexample to claim C3 as stated: calling `input_done` before
`start()` does not raise any error — it silently no-ops, returning the
state unchanged. -/
theorem input_done_before_start_no_raise :
    input_done (mkOperator "op" [] [] false) 0
      = Except.ok (mkOperator "op" [] [] false) := rfl

/-- Claim C3 amended: of the lifecycle methods, only `shutdown` checks
`started` and raises a usage error (`ValueError`) before `start()`;
`input_done` silently no-ops, and `all_inputs_done` /
`all_dependents_complete` set their flags without raising; the base-class
`add_input`, `get_next` and `has_next` raise `NotImplementedError`
irrespective of `started`. -/
theorem lifecycle_before_start_behavior :
    (∀ s : OpState, s.started = false →
      shutdown s = Except.error (PyError.valueError
        "Operator must be started before being shutdown.")) ∧
    (∀ (s : OpState) (i : Nat), input_done s i = Except.ok s) ∧
    (∀ s : OpState,
      all_inputs_done s = Except.ok { s with inputs_complete := true }) ∧
    (∀ s : OpState, all_dependents_complete s
      = Except.ok { s with dependents_complete := true }) ∧
    (∀ (s : OpState) (r : List Nat) (i : Nat),
      add_input_base s r i = Except.error PyError.notImplementedError) ∧
    (∀ s : OpState,
      get_next_base s = Except.error PyError.notImplementedError) ∧
    (∀ s : OpState,
      has_next_base s = Except.error PyError.notImplementedError) := by
  refine ⟨fun s h => ?_, fun s i => rfl, fun s => rfl, fun s => rfl,
    fun s r i => rfl, fun s => rfl, fun s => rfl⟩
  simp [shutdown, h]

/-- Witness for amended C3: `shutdown` on a fresh unstarted operator
raises the usage error. -/
theorem lifecycle_before_start_behavior_witness :
    shutdown (mkOperator "op" [] [] false) = Except.error
      (PyError.valueError
        "Operator must be started before being shutdown.") :=
  lifecycle_before_start_behavior.1 (mkOperator "op" [] [] false) rfl

/-- Claim C4: on a freshly constructed operator `started` is false,
`shutdown()` raises the `ValueError` usage error, and no post-call state is
produced (the construction state is left untouched). -/
theorem shutdown_fresh_raises_unchanged (n : String) (deps : List PhysOp)
    (work : List Nat) (hnext : Bool) :
    (mkOperator n deps work hnext).started = false ∧
    shutdown (mkOperator n deps work hnext)
      = Except.error (PyError.valueError
          "Operator must be started before being shutdown.") ∧
    ∀ t : OpState, shutdown (mkOperator n deps work hnext) ≠ Except.ok t := by
  refine ⟨rfl, rfl, fun t h => ?_⟩
  simp [shutdown, mkOperator] at h

/-- Claim C5: an operator with exactly one input dependency, using the
default `num_outputs_total`, answers exactly its single upstream
operator's `num_outputs_total()`. -/
theorem num_outputs_total_single_dep (n : String) (deps : List PhysOp)
    (h : deps.length = 1) :
    ∃ d, deps = [d] ∧
      (PhysOp.mk n deps none).num_outputs_total = d.num_outputs_total := by
  match deps, h with
  | [d], _ => exact ⟨d, rfl, rfl⟩

/-- Witness for C5: a map operator over a source that knows its output
count (5) reports 5 as well. -/
theorem num_outputs_total_single_dep_witness :
    ∃ d, [PhysOp.mk "src" [] (some (some 5))] = [d] ∧
      (PhysOp.mk "map" [PhysOp.mk "src" [] (some (some 5))]
        none).num_outputs_total = d.num_outputs_total :=
  num_outputs_total_single_dep "map" [PhysOp.mk "src" [] (some (some 5))] rfl

/-- Claim C6: right after construction `inputsComplete` is true iff the
dependency list is empty, and no call other than `allInputsDone` changes
`inputsComplete`. -/
theorem inputs_complete_init_and_only_all_inputs_done :
    (∀ (n : String) (deps : List PhysOp) (work : List Nat) (hnext : Bool),
      (mkOperator n deps work hnext).inputs_complete = deps.isEmpty) ∧
    (∀ (s : OpState) (st : Step), st ≠ Step.allInputsDone →
      (applyStep s st).inputs_complete = s.inputs_complete) := by
  constructor
  · intro n deps work hnext
    rfl
  · intro s st h
    cases st <;> first | rfl | exact absurd rfl h

/-- Witness for C6: `start` leaves `inputsComplete` untouched on an
operator with one (hence incomplete) input dependency. -/
theorem inputs_complete_init_and_only_all_inputs_done_witness :
    (applyStep (mkOperator "op" [PhysOp.mk "u" [] none] [] false)
      Step.start).inputs_complete
      = (mkOperator "op" [PhysOp.mk "u" [] none] [] false).inputs_complete :=
  inputs_complete_init_and_only_all_inputs_done.2
    (mkOperator "op" [PhysOp.mk "u" [] none] [] false) Step.start
    (by decide)

/-- Claim C7: every component of the Resource Vectors returned by
`base_resource_usage`, `current_resource_usage` and
`incremental_resource_usage` is nonnegative, in every state. -/
theorem resource_usage_nonneg (s : OpState) :
    (0 ≤ (base_resource_usage s).cpu ∧ 0 ≤ (base_resource_usage s).gpu ∧
      0 ≤ (base_resource_usage s).object_store_memory) ∧
    (0 ≤ (current_resource_usage s).cpu ∧
      0 ≤ (current_resource_usage s).gpu ∧
      0 ≤ (current_resource_usage s).object_store_memory) ∧
    (0 ≤ (incremental_resource_usage s).cpu ∧
      0 ≤ (incremental_resource_usage s).gpu ∧
      0 ≤ (incremental_resource_usage s).object_store_memory) := by
  refine ⟨⟨?_, ?_, ?_⟩, ⟨?_, ?_, ?_⟩, ⟨?_, ?_, ?_⟩⟩ <;> exact le_refl 0

/-- Claim C8: the default `num_active_work_refs` equals the length of the
list returned by `get_work_refs` in the same state, and agrees with the
spec-side description of that count. -/
theorem num_active_work_refs_eq_get_work_refs_length (s : OpState) :
    num_active_work_refs s = (get_work_refs s).length ∧
    num_active_work_refs s = num_active_work_refs_spec s :=
  ⟨rfl, rfl⟩

/-- Claim C9: an operator using the default `num_outputs_total` whose
dependency list does not have length 1 (zero deps, or two or more) answers
`none`, whatever the rest of its state. -/
theorem num_outputs_total_not_single_dep (n : String) (deps : List PhysOp)
    (h : deps.length ≠ 1) :
    (PhysOp.mk n deps none).num_outputs_total = none := by
  match deps with
  | [] => rfl
  | [d] => exact absurd rfl h
  | a :: b :: rest => rfl

/-- Witness for C9: a two-input zip operator reports an unknown output
count even though both upstream counts are known. -/
theorem num_outputs_total_not_single_dep_witness :
    (PhysOp.mk "zip"
      [PhysOp.mk "a" [] (some (some 3)), PhysOp.mk "b" [] (some (some 4))]
      none).num_outputs_total = none :=
  num_outputs_total_not_single_dep "zip"
    [PhysOp.mk "a" [] (some (some 3)), PhysOp.mk "b" [] (some (some 4))]
    (by decide)

/-- Claim C10: an operator constructed with no input dependencies, whose
`get_work_refs()` is empty and whose `has_next()` is false, is `completed`
immediately after construction, before any lifecycle call. -/
theorem completed_fresh_source (n : String) (deps : List PhysOp)
    (work : List Nat) (hnext : Bool) (h0 : deps = []) (h1 : work = [])
    (h2 : hnext = false) :
    completed (mkOperator n deps work hnext) = true := by
  subst h0
  subst h1
  subst h2
  rfl

/-- Witness for C10: a concrete fresh source operator is completed. -/
theorem completed_fresh_source_witness :
    completed (mkOperator "source" [] [] false) = true :=
  completed_fresh_source "source" [] [] false rfl rfl rfl
